import Mathlib

/-!
Shallow embedding of `src/Exploratort-Data-Analysis/eda_python.py`, a
straight-line script that synthesizes a quarterly GDP-growth time series
(2005 Q1 to 2010 Q4), subtracts a 4.5-point shock on the quarters of 2008,
adds noise, builds a date-indexed table, and prints descriptive statistics.

Random draws (`np.random.normal`) are modelled as arbitrary streams
`ℕ → ℚ` supplied as parameters: the script takes the first `n_points`
values of the stream.  Float values are modelled by `ℚ`.
-/

/-- Calendar date, as used by the script's `pd.date_range` axis and the
`pd.to_datetime` literals.  Only construction, ordering and month
arithmetic are needed. -/
structure Date where
  year : Nat
  month : Nat
  day : Nat
deriving DecidableEq

/-- Total order key for dates (fields are far below the radix:
`month ≤ 12`, `day ≤ 31`). -/
def Date.key (d : Date) : Nat := d.year * 512 + d.month * 32 + d.day

/-- Add `k` calendar months to a date, keeping the day of month
(the script only ever steps between first-of-month dates). -/
def Date.addMonths (d : Date) (k : Nat) : Date :=
  let m := d.month - 1 + k
  ⟨d.year + m / 12, m % 12 + 1, d.day⟩

/-- `pd.date_range(start, end, freq='QS')` for a quarter-aligned `start`:
all dates `start + 3k months` that do not pass `stop`, in order.  The
generous bound covers every quarter start in `[start, stop]`. -/
def dateRangeQS (start stop : Date) : List Date :=
  let bound := (stop.year + 1 - start.year) * 4 + 4
  ((List.range bound).map (fun i => start.addMonths (3 * i))).filter
    (fun d => d.key ≤ stop.key)

/-- `dates = pd.date_range(start='2005-01-01', end='2010-12-31', freq='QS')`. -/
def dates : List Date := dateRangeQS ⟨2005, 1, 1⟩ ⟨2010, 12, 31⟩

/-- `n_points = len(dates)`. -/
def n_points : Nat := dates.length

/-- `pd.to_datetime('2008-01-01')`, the shock-window start date. -/
def shockStartDate : Date := ⟨2008, 1, 1⟩

/-- `pd.to_datetime('2009-01-01')`, the shock-window end date. -/
def shockEndDate : Date := ⟨2009, 1, 1⟩

/-- `np.where(axis == d)[0][0]`: index of the first element equal to `d`;
`none` models the uncaught index-not-found error when `d` is absent. -/
def firstIdxOf (axis : List Date) (d : Date) : Option Nat :=
  match axis with
  | [] => none
  | x :: xs => if x = d then some 0 else (firstIdxOf xs d).map (· + 1)

/-- `baseline_growth = np.random.normal(5.0, 0.5, n_points)`: the first
`n_points` values of the draw stream `b` (the distribution itself is not
modelled; draws are arbitrary). -/
def baseline_growth (b : Nat → ℚ) : List ℚ :=
  (List.range n_points).map b

/-- `xs[s:e] -= 4.5`: subtract 4.5 at each index in the half-open slice
`[s, e)` (indices past the end are unaffected, as in slice assignment). -/
def applyShock (xs : List ℚ) (s e : Nat) : List ℚ :=
  List.zipWith (fun x i => if s ≤ i ∧ i < e then x - 4.5 else x)
    xs (List.range xs.length)

/-- Index of a pandas DataFrame: either the default `RangeIndex` or a
`DatetimeIndex` holding the dates moved there by `set_index('Date')`. -/
inductive PdIndex where
  | rangeIdx (n : Nat)
  | datetimeIdx (ds : List Date)
deriving DecidableEq

/-- The table.  Cells of the single data column are `Option ℚ`: `none`
models a missing (NaN/null) cell, as counted by `df.isnull()`. -/
structure DataFrame where
  index : PdIndex
  columns : List String
  gdp : List (Option ℚ)
deriving DecidableEq

/-- `pd.DataFrame({'Date': dates, 'GDP_Growth_Rate': vals})`: default
range index, the two columns side by side, every cell present. -/
structure RawFrame where
  dateCol : List Date
  gdpCol : List (Option ℚ)

/-- Build the raw two-column frame from the axis and the value list. -/
def mkFrame (ds : List Date) (vals : List ℚ) : RawFrame :=
  ⟨ds, vals.map some⟩

/-- `df = df.set_index('Date')`: the Date column becomes the (datetime)
index, leaving `GDP_Growth_Rate` as the only column. -/
def RawFrame.setIndexDate (r : RawFrame) : DataFrame :=
  ⟨PdIndex.datetimeIdx r.dateCol, ["GDP_Growth_Rate"], r.gdpCol⟩

/-- The whole generation phase over a given axis, draw streams `b`
(baseline) and `g` (noise): locate the shock boundaries by exact-date
lookup (failure propagates as `none`), subtract 4.5 on the slice, add
noise to every point, assemble the frame and set the date index. -/
def generateOn (axis : List Date) (b g : Nat → ℚ) : Option DataFrame :=
  let baseline := (List.range axis.length).map b
  match firstIdxOf axis shockStartDate, firstIdxOf axis shockEndDate with
  | some s, some e =>
      let shocked := applyShock baseline s e
      let vals := List.zipWith (· + ·) shocked ((List.range axis.length).map g)
      some (mkFrame axis vals).setIndexDate
  | _, _ => none

/-- The script's generation on its hardcoded axis. -/
def generate? (b g : Nat → ℚ) : Option DataFrame := generateOn dates b g

/-- `shock_period_start = np.where(dates == '2008-01-01')[0][0]` as a
plain number (the lookup is total on the hardcoded axis; `getD 0` stands
for the crash-free case, proved below). -/
def shock_period_start : Nat := (firstIdxOf dates shockStartDate).getD 0

/-- `shock_period_end = np.where(dates == '2009-01-01')[0][0]`. -/
def shock_period_end : Nat := (firstIdxOf dates shockEndDate).getD 0

/-- Insert a value into a sorted list of rationals. -/
def insertSorted (x : ℚ) : List ℚ → List ℚ
  | [] => [x]
  | y :: ys => if x ≤ y then x :: y :: ys else y :: insertSorted x ys

/-- Sort a list of rationals ascending (insertion sort). -/
def sortQ (xs : List ℚ) : List ℚ := xs.foldr insertSorted []

/-- Linear-interpolation percentile on an already sorted list, as used by
`Series.describe` for the 25/50/75% rows: position `h = q·(n−1)`, value
`s[⌊h⌋] + (h−⌊h⌋)·(s[⌊h⌋+1] − s[⌊h⌋])` (upper index clamped). -/
def percentile (s : List ℚ) (q : ℚ) : ℚ :=
  let n := s.length
  if n = 0 then 0
  else
    let h : ℚ := q * ((n : ℚ) - 1)
    let i : Nat := (Rat.floor h).toNat
    let lo := s.getD i 0
    let hi := s.getD (min (i + 1) (n - 1)) 0
    lo + (h - (i : ℚ)) * (hi - lo)

/-- The rows printed by `df['GDP_Growth_Rate'].describe()`.  `stdSq` holds
the square of the printed sample standard deviation (the square root of a
rational is not rational; no claim concerns the std row).  For a single
value pandas prints `std = NaN` (0/0); here the `ℚ` convention `x/0 = 0`
applies instead. -/
structure Stats where
  count : Nat
  mean : ℚ
  stdSq : ℚ
  min : ℚ
  q25 : ℚ
  q50 : ℚ
  q75 : ℚ
  max : ℚ
deriving DecidableEq

/-- `Series.describe()` on the column's cells: non-null cells are counted
and summarised (count, mean, std, min, quartiles, max). -/
def describe (cells : List (Option ℚ)) : Stats :=
  let v := cells.filterMap id
  let n := v.length
  let m := v.sum / (n : ℚ)
  let s := sortQ v
  { count := n
    mean := m
    stdSq := (v.map (fun x => (x - m) ^ 2)).sum / ((n : ℚ) - 1)
    min := s.headD 0
    q25 := percentile s (1/4)
    q50 := percentile s (1/2)
    q75 := percentile s (3/4)
    max := s.getLastD 0 }

/-- `df.isnull().sum().sum()`: number of missing cells in the table. -/
def missingSum (df : DataFrame) : Nat :=
  df.gdp.countP (fun o => o.isNone)

/-- `isinstance(df.index, pd.DatetimeIndex)`. -/
def isDatetimeIndex (df : DataFrame) : Bool :=
  match df.index with
  | PdIndex.datetimeIdx _ => true
  | PdIndex.rangeIdx _ => false

/-- What the descriptive-reporting step writes: the statistics block, the
missing-value count, the index-type boolean. -/
structure Report where
  stats : Stats
  missing : Nat
  isDatetime : Bool
deriving DecidableEq

/-- The reporting step (source lines 40–45): it returns the table it was
given together with its output — `describe`, `isnull` sum and the
`isinstance` check read the table and mutate nothing. -/
def reportStep (df : DataFrame) : DataFrame × Report :=
  (df, ⟨describe df.gdp, missingSum df, isDatetimeIndex df⟩)

/-- The script's console messages, one constructor per `print` block (the
statistics header and table are one block). -/
inductive Msg where
  | genNotice
  | sizeNotice (n : Nat)
  | statsBlock (s : Stats)
  | missingNotice (k : Nat)
  | indexNotice (b : Bool)
  | doneNotice

/-- Position tag of a message kind, for stating output order. -/
def Msg.tag : Msg → Nat
  | .genNotice => 0
  | .sizeNotice _ => 1
  | .statsBlock _ => 2
  | .missingNotice _ => 3
  | .indexNotice _ => 4
  | .doneNotice => 5

/-- Everything a run writes to standard output, in order: the generation
notice, then — if generation survives the exact-date lookups — the size
notice, the statistics block, the missing-value count, the index-type
boolean and the completion notice.  On a failed lookup the script dies
having printed only the first message. -/
def scriptMsgs (b g : Nat → ℚ) : List Msg :=
  match generate? b g with
  | none => [Msg.genNotice]
  | some df =>
      let r := (reportStep df).2
      [Msg.genNotice, Msg.sizeNotice df.gdp.length, Msg.statsBlock r.stats,
       Msg.missingNotice r.missing, Msg.indexNotice r.isDatetime, Msg.doneNotice]

/-- Mean of a list of rationals (`x/0 = 0` covers only the empty list,
which never occurs below). -/
def meanQ (xs : List ℚ) : ℚ := xs.sum / (xs.length : ℚ)

/-- Test-oracle series from the spec's glossary: the baseline after the
shock subtraction but before noise (not materialised by the script). -/
def baselineShocked (b : Nat → ℚ) : List ℚ :=
  applyShock (baseline_growth b) shock_period_start shock_period_end

/-- The indices inside the shock window. -/
def windowIdx : List Nat :=
  (List.range n_points).filter
    (fun i => decide (shock_period_start ≤ i ∧ i < shock_period_end))

/-- The indices outside the shock window. -/
def outsideIdx : List Nat :=
  (List.range n_points).filter
    (fun i => ! decide (shock_period_start ≤ i ∧ i < shock_period_end))

/-- Mean of the pre-noise series over the shock-window indices. -/
def shockWindowMean (b : Nat → ℚ) : ℚ :=
  meanQ (windowIdx.map (fun i => (baselineShocked b).getD i 0))

/-- Mean of the pre-noise series outside the shock window. -/
def outsideMean (b : Nat → ℚ) : ℚ :=
  meanQ (outsideIdx.map (fun i => (baselineShocked b).getD i 0))

/-- The all-zero draw stream, used to instantiate universally quantified
results at a concrete input. -/
def zeroDraws : Nat → ℚ := fun _ => 0

/-- The table generated from all-zero draws. -/
def dfZero : DataFrame :=
  match generate? zeroDraws zeroDraws with
  | some df => df
  | none => ⟨PdIndex.rangeIdx 0, [], []⟩

/-- The exact-date lookup returns nothing iff the date is absent. -/
theorem firstIdxOf_eq_none_iff (axis : List Date) (d : Date) :
    firstIdxOf axis d = none ↔ d ∉ axis := by
  induction axis with
  | nil => simp [firstIdxOf]
  | cons x xs ih =>
      by_cases hx : x = d
      · subst hx; simp [firstIdxOf]
      · simp only [firstIdxOf, if_neg hx, Option.map_eq_none', ih,
          List.mem_cons, not_or]
        exact ⟨fun h => ⟨fun hdx => hx hdx.symm, h⟩, fun h => h.2⟩

/-- A column built by wrapping plain values has no missing cells. -/
theorem countP_isNone_map_some (xs : List ℚ) :
    (xs.map some).countP (fun o => o.isNone) = 0 := by
  induction xs with
  | nil => rfl
  | cons x xs ih => simp [List.countP_cons, ih]

/-- Generation on the hardcoded axis, written out: lookups hit 12 and 16
and the frame is assembled from the shocked-plus-noise values. -/
theorem generate?_eq (b g : Nat → ℚ) :
    generate? b g =
      some ((mkFrame dates (List.zipWith (· + ·)
        (applyShock ((List.range dates.length).map b) 12 16)
        ((List.range dates.length).map g))).setIndexDate) := rfl

/-- The hardcoded axis, written out: the 24 quarter starts of 2005–2010. -/
theorem dates_eq :
    dates =
      [⟨2005, 1, 1⟩, ⟨2005, 4, 1⟩, ⟨2005, 7, 1⟩, ⟨2005, 10, 1⟩,
       ⟨2006, 1, 1⟩, ⟨2006, 4, 1⟩, ⟨2006, 7, 1⟩, ⟨2006, 10, 1⟩,
       ⟨2007, 1, 1⟩, ⟨2007, 4, 1⟩, ⟨2007, 7, 1⟩, ⟨2007, 10, 1⟩,
       ⟨2008, 1, 1⟩, ⟨2008, 4, 1⟩, ⟨2008, 7, 1⟩, ⟨2008, 10, 1⟩,
       ⟨2009, 1, 1⟩, ⟨2009, 4, 1⟩, ⟨2009, 7, 1⟩, ⟨2009, 10, 1⟩,
       ⟨2010, 1, 1⟩, ⟨2010, 4, 1⟩, ⟨2010, 7, 1⟩, ⟨2010, 10, 1⟩] := by
  decide

/-- Claim C2: the generated time axis has exactly 24 elements, is
strictly increasing, and each element is exactly 3 months (one quarter)
after the previous one. -/
theorem claim_C2 :
    dates.length = 24
    ∧ List.Pairwise (fun a b => a.key < b.key) dates
    ∧ List.Chain' (fun a b => b = a.addMonths 3) dates := by
  rw [dates_eq]
  refine ⟨by decide, ?_, ?_⟩
  · simp [List.pairwise_cons, Date.key]
  · simp [List.chain'_cons, Date.addMonths, Date.mk.injEq]

/-- Claim C10: the shock-start lookup yields index 12 and the shock-end
lookup yields index 16; the −4.5 offset hits exactly indices 12–15, which
are the four quarter-start dates of calendar year 2008. -/
theorem claim_C10 :
    firstIdxOf dates shockStartDate = some 12
    ∧ firstIdxOf dates shockEndDate = some 16
    ∧ windowIdx = [12, 13, 14, 15]
    ∧ dates.getD 12 ⟨0,0,0⟩ = ⟨2008, 1, 1⟩
    ∧ dates.getD 13 ⟨0,0,0⟩ = ⟨2008, 4, 1⟩
    ∧ dates.getD 14 ⟨0,0,0⟩ = ⟨2008, 7, 1⟩
    ∧ dates.getD 15 ⟨0,0,0⟩ = ⟨2008, 10, 1⟩ := by
  decide

/-- Claim C6: the reporter is read-only and idempotent — it hands the
table back unchanged, and running it again on that table produces the
same report. -/
theorem claim_C6 (df : DataFrame) :
    (reportStep df).1 = df
    ∧ (reportStep (reportStep df).1).2 = (reportStep df).2 :=
  ⟨rfl, rfl⟩

/-- Claim C3: generation fails (index-not-found, modelled as `none`) iff
2008-01-01 or 2009-01-01 is absent from the axis; on the script's
hardcoded axis both are present, so generation always completes. -/
theorem claim_C3 :
    (∀ (axis : List Date) (b g : Nat → ℚ),
        generateOn axis b g = none
          ↔ (shockStartDate ∉ axis ∨ shockEndDate ∉ axis))
    ∧ shockStartDate ∈ dates ∧ shockEndDate ∈ dates
    ∧ ∀ b g : Nat → ℚ, (generate? b g).isSome = true := by
  refine ⟨?_, by decide, by decide, fun b g => rfl⟩
  intro axis b g
  rcases h1 : firstIdxOf axis shockStartDate with _ | s
  · simp [generateOn, h1, (firstIdxOf_eq_none_iff axis shockStartDate).mp h1]
  · rcases h2 : firstIdxOf axis shockEndDate with _ | e
    · simp [generateOn, h1, h2,
        (firstIdxOf_eq_none_iff axis shockEndDate).mp h2]
    · have m1 : shockStartDate ∈ axis := by
        by_contra hm
        rw [(firstIdxOf_eq_none_iff axis shockStartDate).mpr hm] at h1
        cases h1
      have m2 : shockEndDate ∈ axis := by
        by_contra hm
        rw [(firstIdxOf_eq_none_iff axis shockEndDate).mpr hm] at h2
        cases h2
      simp [generateOn, h1, h2, m1, m2]

/-- Claim C5: every generated table has zero missing cells. -/
theorem claim_C5 (b g : Nat → ℚ) (df : DataFrame)
    (h : generate? b g = some df) : missingSum df = 0 := by
  rw [generate?_eq] at h
  injection h with h
  subst h
  simp [missingSum, mkFrame, RawFrame.setIndexDate, countP_isNone_map_some]

/-- Witness for claim C5 at the all-zero draw streams. -/
theorem claim_C5_witness : missingSum dfZero = 0 :=
  claim_C5 zeroDraws zeroDraws dfZero rfl

/-- Claim C8: any two generated tables share the same structure — the
same 24-element datetime index and the same single column — whatever the
draws were. -/
theorem claim_C8 (b₁ g₁ b₂ g₂ : Nat → ℚ) (df₁ df₂ : DataFrame)
    (h₁ : generate? b₁ g₁ = some df₁) (h₂ : generate? b₂ g₂ = some df₂) :
    df₁.index = df₂.index ∧ df₁.columns = df₂.columns
    ∧ df₁.index = PdIndex.datetimeIdx dates
    ∧ df₁.columns = ["GDP_Growth_Rate"]
    ∧ dates.length = 24 := by
  rw [generate?_eq] at h₁ h₂
  injection h₁ with h₁
  injection h₂ with h₂
  subst h₁; subst h₂
  exact ⟨rfl, rfl, rfl, rfl, by decide⟩

/-- Witness for claim C8 at two concrete runs. -/
theorem claim_C8_witness :
    dfZero.index = dfZero.index ∧ dfZero.columns = dfZero.columns
    ∧ dfZero.index = PdIndex.datetimeIdx dates
    ∧ dfZero.columns = ["GDP_Growth_Rate"]
    ∧ dates.length = 24 :=
  claim_C8 zeroDraws zeroDraws zeroDraws zeroDraws dfZero dfZero rfl rfl

/-- Claim C7 as frozen is false: a run writes six output blocks, not
five, as this concrete run shows. -/
theorem claim_C7_counterexample :
    ¬ (scriptMsgs zeroDraws zeroDraws).length = 5 := by
  intro h
  rw [show (scriptMsgs zeroDraws zeroDraws).length = 6 from rfl] at h
  omega

/-- Claim C7 (amended): a run writes exactly six messages/tables, in
order: generation notice, size notice, descriptive-statistics block,
missing-value count, index-type boolean, completion notice. -/
theorem claim_C7_amended (b g : Nat → ℚ) :
    (scriptMsgs b g).map Msg.tag = [0, 1, 2, 3, 4, 5]
    ∧ (scriptMsgs b g).length = 6 :=
  ⟨rfl, rfl⟩

/-- Claim C1: each point of the generated series is its baseline draw,
minus 4.5 exactly when its index lies in the half-open window between
the looked-up boundary indices, plus its noise draw — the noise lands on
every point, shocked ones included. -/
theorem claim_C1 (b g : Nat → ℚ) (s e : Nat)
    (hs : firstIdxOf dates shockStartDate = some s)
    (he : firstIdxOf dates shockEndDate = some e)
    (df : DataFrame) (h : generate? b g = some df)
    (i : Nat) (hi : i < n_points) :
    df.gdp.getD i none =
      some ((if s ≤ i ∧ i < e then b i - 4.5 else b i) + g i) := by
  rw [show firstIdxOf dates shockStartDate = some 12 from rfl] at hs
  injection hs with hs
  rw [show firstIdxOf dates shockEndDate = some 16 from rfl] at he
  injection he with he
  subst hs; subst he
  rw [generate?_eq] at h
  injection h with h
  subst h
  rw [show n_points = 24 from rfl] at hi
  interval_cases i <;> rfl

/-- Witness for claim C1 at the all-zero draws and index 0. -/
theorem claim_C1_witness :
    dfZero.gdp.getD 0 none =
      some ((if 12 ≤ 0 ∧ 0 < 16 then zeroDraws 0 - 4.5 else zeroDraws 0)
        + zeroDraws 0) :=
  claim_C1 zeroDraws zeroDraws 12 16 rfl rfl dfZero rfl 0 (by decide)

/-- Any percentile of a one-element sample is that element. -/
theorem percentile_singleton (x q : ℚ) : percentile [x] q = x := by
  simp [percentile, show Rat.floor 0 = 0 from rfl]

/-- Claim C9: on a one-row table the reporter does not fail — the count
is 1, the missing count is 0, and min, quartiles and max all equal the
single value. -/
theorem claim_C9 (d : Date) (x : ℚ) :
    ((reportStep ((mkFrame [d] [x]).setIndexDate)).2.stats.count = 1
      ∧ (reportStep ((mkFrame [d] [x]).setIndexDate)).2.missing = 0)
    ∧ (reportStep ((mkFrame [d] [x]).setIndexDate)).2.stats.min = x
    ∧ (reportStep ((mkFrame [d] [x]).setIndexDate)).2.stats.q25 = x
    ∧ (reportStep ((mkFrame [d] [x]).setIndexDate)).2.stats.q50 = x
    ∧ (reportStep ((mkFrame [d] [x]).setIndexDate)).2.stats.q75 = x
    ∧ (reportStep ((mkFrame [d] [x]).setIndexDate)).2.stats.max = x := by
  refine ⟨⟨rfl, rfl⟩, rfl, ?_, ?_, ?_, rfl⟩ <;>
    exact percentile_singleton x _

/-- An adversarial baseline stream: 10 on the pre-shock quarters, 0 from
the shock window on. -/
def bBad : Nat → ℚ := fun i => if i < 12 then 10 else 0

/-- Claim C4 as frozen is false: for the draw stream `bBad` the gap
between the outside mean and the shock-window mean of the pre-noise
series misses 4.5 by far more than the stated ±1.5 tolerance. -/
theorem claim_C4_counterexample :
    ¬ |outsideMean bBad - shockWindowMean bBad - 4.5| ≤ 1.5 := by
  have e1 : outsideIdx.map (fun i => (baselineShocked bBad).getD i 0)
      = [(10 : ℚ), 10, 10, 10, 10, 10, 10, 10, 10, 10, 10, 10,
         0, 0, 0, 0, 0, 0, 0, 0] := rfl
  have e2 : windowIdx.map (fun i => (baselineShocked bBad).getD i 0)
      = [(0 : ℚ) - 4.5, 0 - 4.5, 0 - 4.5, 0 - 4.5] := rfl
  rw [outsideMean, shockWindowMean, e1, e2, abs_le]
  simp only [meanQ, List.sum_cons, List.sum_nil, List.length_cons,
    List.length_nil]
  push_cast
  intro hcon
  linarith [hcon.2]

/-- Claim C4 (amended): when every baseline draw lies within 0.75 (one
and a half baseline standard deviations) of the mean 5.0, the
shock-window mean of the pre-noise series sits 4.5 below the outside
mean to within ±1.5. -/
theorem claim_C4_amended (b : Nat → ℚ)
    (hb : ∀ i, i < n_points → |b i - 5| ≤ 3/4) :
    |outsideMean b - shockWindowMean b - 4.5| ≤ 1.5 := by
  have e1 : outsideIdx.map (fun i => (baselineShocked b).getD i 0)
      = [b 0, b 1, b 2, b 3, b 4, b 5, b 6, b 7, b 8, b 9, b 10, b 11,
         b 16, b 17, b 18, b 19, b 20, b 21, b 22, b 23] := rfl
  have e2 : windowIdx.map (fun i => (baselineShocked b).getD i 0)
      = [b 12 - 4.5, b 13 - 4.5, b 14 - 4.5, b 15 - 4.5] := rfl
  have h0 := abs_le.mp (hb 0 (by decide))
  have h1 := abs_le.mp (hb 1 (by decide))
  have h2 := abs_le.mp (hb 2 (by decide))
  have h3 := abs_le.mp (hb 3 (by decide))
  have h4 := abs_le.mp (hb 4 (by decide))
  have h5 := abs_le.mp (hb 5 (by decide))
  have h6 := abs_le.mp (hb 6 (by decide))
  have h7 := abs_le.mp (hb 7 (by decide))
  have h8 := abs_le.mp (hb 8 (by decide))
  have h9 := abs_le.mp (hb 9 (by decide))
  have h10 := abs_le.mp (hb 10 (by decide))
  have h11 := abs_le.mp (hb 11 (by decide))
  have h12 := abs_le.mp (hb 12 (by decide))
  have h13 := abs_le.mp (hb 13 (by decide))
  have h14 := abs_le.mp (hb 14 (by decide))
  have h15 := abs_le.mp (hb 15 (by decide))
  have h16 := abs_le.mp (hb 16 (by decide))
  have h17 := abs_le.mp (hb 17 (by decide))
  have h18 := abs_le.mp (hb 18 (by decide))
  have h19 := abs_le.mp (hb 19 (by decide))
  have h20 := abs_le.mp (hb 20 (by decide))
  have h21 := abs_le.mp (hb 21 (by decide))
  have h22 := abs_le.mp (hb 22 (by decide))
  have h23 := abs_le.mp (hb 23 (by decide))
  rw [abs_le, outsideMean, shockWindowMean, e1, e2]
  simp only [meanQ, List.sum_cons, List.sum_nil, List.length_cons,
    List.length_nil]
  push_cast
  constructor <;> linarith

/-- Witness for amended claim C4 at the constant stream 5. -/
theorem claim_C4_witness :
    |outsideMean (fun _ => 5) - shockWindowMean (fun _ => 5) - 4.5| ≤ 1.5 :=
  claim_C4_amended (fun _ => 5) (fun i _ => by norm_num)

